import Mathlib

/-!
# Verification of serum's scoped dependency-resolution engine

Shallow embedding of `src/serum/_context.py` (class `Context`: the scope
stack, subtype selection, lifecycle dispatch, cycle detection, mocking) and
the binder of `src/serum/_inject.py` / `src/serum/_injected_dependency.py`.

Modelling conventions:
* Python classes become `PyClass` table entries: a class id, its MRO as a
  list of class ids (`inspect.getmro`), the `__singleton__` marker, the
  `__dependencies__` list installed by `@inject` (annotated name, class id
  of the annotation), whether the user `__init__` reads each bound field
  (as the classes in `test/test_context.py::test_circular_dependency` do),
  and whether a bare constructor call succeeds (`constructible = false`
  models abstract classes whose call raises `TypeError`).
* Python objects live in a heap (`Sys.objs`); `setattr`/descriptor reads
  are heap updates/lookups, so object identity is the heap id.
* Thread-local state (`_LocalStorage.current_env`) is `Sys.current` for the
  one thread of control the claims are about; `Context` objects live in a
  heap `Sys.ctxs` keyed by allocation order, so `Context()` allocates.
* Python `dict`s are insertion-ordered association lists (`updateAssoc`
  replaces in place or appends, as CPython does); the `set` used for
  `Context.__registry` / pending is a duplicate-free list.
* Exception *messages* (string formatting) are not modelled; exceptions
  carry the class ids the messages are built from.  `configuration.name`
  and `configuration.owner` only feed messages, so `DependencyConfiguration`
  reduces to its `dependency` field here.
-/

namespace Serum

/-- A key of the mock table `_ContextState.mocks`: Python indexes it both by
dependency classes and by named-dependency strings. -/
inductive MockKey where
  | cls (cid : Nat)
  | nm (s : String)
deriving DecidableEq, Repr

/-- The exception taxonomy of `serum/exceptions.py` restricted to what the
`_context.py` code paths can raise, plus Python's `TypeError` (raised by
calling an abstract class) and `AttributeError`.  `unregisteredDependency`
is declared in `exceptions.py` but never raised by `_context.py`; it is kept
so that theorems can state its absence. -/
inductive SerumError where
  | ambiguousDependencies (component : Nat) (tied : List Nat)
  | circularDependency (dtype : Nat)
  | injectionError (dtype : Nat) (cause : SerumError)
  | noNamedDependency (item : String)
  | unregisteredDependency
  | typeError (dtype : Nat)
  | attributeError (nm : String)
deriving DecidableEq, Repr

/-- A runtime value: an object reference (heap id plus its class), a mock
produced by `create_autospec`, a stored exception (the binder's
`__set_dependency` stores exceptions as attribute values), or a literal
(named-dependency payloads). -/
inductive Value where
  | obj (oid : Nat) (cls : Nat)
  | mockV (mid : Nat)
  | exc (e : SerumError)
  | lit (s : String)
deriving DecidableEq, Repr

/-- A heap-allocated Python object: its class and its attribute dictionary
(the mangled `_Cls__name` slots the binder writes with `setattr`). -/
structure PyObj where
  cls : Nat
  fields : List (String × Value)
deriving DecidableEq, Repr

/-- A Python class as the engine observes it (see the module docstring). -/
structure PyClass where
  cid : Nat
  mro : List Nat
  singletonAttr : Bool
  dependencyAttr : Bool
  fields : List (String × Nat)
  forceFields : Bool
  constructible : Bool
deriving DecidableEq, Repr

/-- `d[k] = v` on an insertion-ordered Python dict: overwrite in place if
the key is present, append otherwise (keys are unique, as in a dict). -/
def updateAssoc {α β : Type} [DecidableEq α] : List (α × β) → α → β → List (α × β)
  | [], k, v => [(k, v)]
  | (a, b) :: t, k, v => if a = k then (k, v) :: t else (a, b) :: updateAssoc t k v

/-- Class-table lookup; a missing id yields an inert empty class (scenarios
never look up missing ids). -/
def getClass (cs : List PyClass) (cid : Nat) : PyClass :=
  (cs.find? (fun c => c.cid = cid)).getD ⟨cid, [], false, false, [], false, false⟩

/-- `issubclass(c, component)`: the target occurs in the candidate's MRO. -/
def issubclassB (cs : List PyClass) (c component : Nat) : Bool :=
  component ∈ (getClass cs c).mro

/-- `Context.find_subtype.mro_distance`: position of the requested type in
the candidate's own MRO (`inspect.getmro(subtype).index(component)`). -/
def mroDistance (cs : List PyClass) (component c : Nat) : Nat :=
  (getClass cs c).mro.indexOf component

/-- One step of CPython's `max(..., key=f)`: keep the incumbent unless the
new element's key is strictly greater (so the first maximum wins). -/
def pyMaxStep (f : Nat → Nat) (acc : Option Nat) (x : Nat) : Option Nat :=
  match acc with
  | none => some x
  | some m => if f x > f m then some x else some m

/-- `max(l, key=f)` as the left fold CPython performs; `none` on `[]`. -/
def pyMax (f : Nat → Nat) (l : List Nat) : Option Nat :=
  l.foldl (pyMaxStep f) none

/-- `_ContextState`: pending set (cycle guard), mock table, singleton
cache.  `pending` is kept as a duplicate-free list; the unused
`old_current` slot of the Python class is dropped (no code reads it). -/
structure CtxState where
  pending : List Nat := []
  mocks : List (MockKey × Value) := []
  singletons : List (MockKey × Value) := []
deriving DecidableEq, Repr

/-- `_ContextState.__deepcopy__` exactly as written in `_context.py`
lines 35-41: `new.pending = copy(self.pending)`,
`new.mocks = copy(self.mocks)`, and — verbatim from the source —
`new.singletons = copy(self.mocks)`: the copy's singleton cache is a copy
of the original's *mock table*. -/
def CtxState.deepcopyState (st : CtxState) : CtxState :=
  { pending := st.pending, mocks := st.mocks, singletons := st.mocks }

/-- A `Context`: the immutable registry (iteration order of the Python
set) and named dependencies, the mutable `_ContextState`, and the
`__old_current` slot saved by `__enter__`. -/
structure Context where
  registry : List Nat := []
  named : List (String × Value) := []
  state : CtxState := {}
  oldCurrent : Option Nat := none
deriving DecidableEq, Repr

/-- The world: the class table, the heap of `Context` objects, the heap of
ordinary objects, the thread-local `current_env`, and the two allocation
counters. -/
structure Sys where
  classes : List PyClass
  ctxs : List (Nat × Context) := []
  objs : List (Nat × PyObj) := []
  current : Option Nat := none
  nextCtx : Nat := 0
  nextObj : Nat := 0
deriving DecidableEq, Repr

def Sys.getCtx (s : Sys) (ci : Nat) : Context :=
  (s.ctxs.lookup ci).getD {}

def Sys.setCtx (s : Sys) (ci : Nat) (c : Context) : Sys :=
  { s with ctxs := updateAssoc s.ctxs ci c }

/-- `Context.current_context`: the thread-local current environment, or a
freshly constructed empty `Context()` when none is set (`_context.py`
lines 58-63).  The fresh context is allocated but *not* installed. -/
def Sys.currentContext (s : Sys) : Nat × Sys :=
  match s.current with
  | some ci => (ci, s)
  | none =>
      (s.nextCtx,
       { s with ctxs := updateAssoc s.ctxs s.nextCtx {}, nextCtx := s.nextCtx + 1 })

/-- `Context(*args, **kwargs)`: allocate a context with the given registry
and named dependencies and fresh state. -/
def Sys.newContext (s : Sys) (registry : List Nat) (named : List (String × Value)) :
    Nat × Sys :=
  (s.nextCtx,
   { s with
      ctxs := updateAssoc s.ctxs s.nextCtx { registry := registry, named := named },
      nextCtx := s.nextCtx + 1 })

/-- `Context.__enter__` (`_context.py` lines 162-171): save
`current_context()` as `__old_current`, deep-copy its state into self,
install self as current. -/
def Sys.enter (s : Sys) (ci : Nat) : Sys :=
  let p := s.currentContext
  let oldState := (p.2.getCtx p.1).state.deepcopyState
  let c := p.2.getCtx ci
  let s2 := p.2.setCtx ci { c with state := oldState, oldCurrent := some p.1 }
  { s2 with current := some ci }

/-- `Context.__exit__` (`_context.py` lines 182-192): reinitialise own
state in place, restore the saved current environment, clear
`__old_current`. -/
def Sys.exitCtx (s : Sys) (ci : Nat) : Sys :=
  let c := s.getCtx ci
  let s1 := s.setCtx ci { c with state := {}, oldCurrent := none }
  { s1 with current := c.oldCurrent }

def Sys.isMocked (s : Sys) (ci : Nat) (k : MockKey) : Bool :=
  ((s.getCtx ci).state.mocks.lookup k).isSome

def Sys.getMock (s : Sys) (ci : Nat) (k : MockKey) : Value :=
  ((s.getCtx ci).state.mocks.lookup k).getD (.lit "")

/-- `Context.__getitem__` (`_context.py` lines 93-106): mock table first,
then the named dependencies, else `NoNamedDependency`. -/
def Sys.getitem (s : Sys) (ci : Nat) (item : String) : Except SerumError Value :=
  let c := s.getCtx ci
  if (c.state.mocks.lookup (MockKey.nm item)).isSome then
    .ok ((c.state.mocks.lookup (MockKey.nm item)).getD (.lit ""))
  else
    match c.named.lookup item with
    | some v => .ok v
    | none => .error (.noNamedDependency item)

/-- `Context.mock` (`_context.py` lines 65-74): on the *current* context
(freshly allocated if none is active), fabricate a stand-in — the
`create_autospec` call is the external test-double collaborator, modelled
as a fresh `mockV` — store it in the mock table under the target, and
return it.  For a string target the current value is looked up first (its
absence raises `NoNamedDependency`). -/
def Sys.mock (s : Sys) (target : MockKey) : Except SerumError (Value × Sys) :=
  let p := s.currentContext
  let install (s1 : Sys) (ci : Nat) : Value × Sys :=
    let mk := Value.mockV s1.nextObj
    let c := s1.getCtx ci
    (mk,
     { s1.setCtx ci
         { c with state := { c.state with mocks := updateAssoc c.state.mocks target mk } }
       with nextObj := s1.nextObj + 1 })
  match target with
  | .nm n =>
      match p.2.getitem p.1 n with
      | .error e => .error e
      | .ok _ => .ok (install p.2 p.1)
  | .cls _ => .ok (install p.2 p.1)

/-- `Context.find_subtype` (`_context.py` lines 252-274): filter the
current registry down to subtypes of the component, raise
`AmbiguousDependencies` (naming every candidate whose MRO distance is
shared) as soon as any distance occurs more than once, return `none` when
there is no candidate, else the distance-maximal candidate. -/
def Sys.findSubtype (s : Sys) (component : Nat) :
    Except SerumError (Option Nat) × Sys :=
  let p := s.currentContext
  let subtypes := (p.2.getCtx p.1).registry.filter
    (fun c => issubclassB p.2.classes c component)
  let distances := subtypes.map (mroDistance p.2.classes component)
  if distances.any (fun d => distances.count d > 1) then
    (.error (.ambiguousDependencies component
        (subtypes.filter
          (fun c => distances.count (mroDistance p.2.classes component c) > 1))), p.2)
  else if subtypes.isEmpty then (.ok none, p.2)
  else (.ok (pyMax (mroDistance p.2.classes component) subtypes), p.2)

/-- `context.pending.add(dependency_type)` (a Python set add). -/
def Sys.addPending (s : Sys) (ci dt : Nat) : Sys :=
  let c := s.getCtx ci
  s.setCtx ci
    { c with state :=
        { c.state with pending :=
            if dt ∈ c.state.pending then c.state.pending else dt :: c.state.pending } }

/-- `context.pending.remove(dependency_type)` in the `finally` block. -/
def Sys.removePending (s : Sys) (ci dt : Nat) : Sys :=
  let c := s.getCtx ci
  s.setCtx ci { c with state := { c.state with pending := c.state.pending.erase dt } }

/-- `Context.add_singleton`. -/
def Sys.addSingleton (s : Sys) (ci dt : Nat) (v : Value) : Sys :=
  let c := s.getCtx ci
  s.setCtx ci
    { c with state :=
        { c.state with singletons := updateAssoc c.state.singletons (.cls dt) v } }

/-- `setattr(owner, mangled_name, value)` during `__set_dependency`. -/
def setattrD (s : Sys) (oid : Nat) (nm : String) (v : Value) : Sys :=
  match s.objs.lookup oid with
  | some o => { s with objs := updateAssoc s.objs oid ⟨o.cls, updateAssoc o.fields nm v⟩ }
  | none => s

/-- The descriptor read `Dependency.__get__`
(`_injected_dependency.py` lines 9-15): fetch the stored slot; a stored
exception is re-raised, anything else is returned. -/
def getattrD (s : Sys) (oid : Nat) (nm : String) : Except SerumError Value :=
  match s.objs.lookup oid with
  | none => .error (.attributeError nm)
  | some o =>
      match o.fields.lookup nm with
      | none => .error (.attributeError nm)
      | some (.exc e) => .error e
      | some v => .ok v

/-- The forced reads a user `__init__` performs (`self.b` in
`test_context.py`'s cycle classes): first stored exception, if any, in
declaration order. -/
def readFieldsErr (s : Sys) (oid : Nat) : List (String × Nat) → Option SerumError
  | [] => none
  | (n, _) :: rest =>
      match getattrD s oid n with
      | .error e => some e
      | .ok _ => readFieldsErr s oid rest

/-- Result of a resolver run: `none` means the fuel bound was hit (a model
artifact — the Python recursion is unbounded); otherwise the raised
exception or returned value, together with the mutated world. -/
abbrev RunResult := Option (Except SerumError Value × Sys)

/-- The `try`/`except`/`finally` of `Context.provide.instantiate`
(`_context.py` lines 229-243) around its body: re-raise
`CircularDependency` unchanged, wrap any other exception as
`InjectionError` naming the dependency type, and in all cases
`pending.remove(dependency_type)` in the `finally` block. -/
def wrapTry (dt ci : Nat) (body : RunResult) : RunResult :=
  match body with
  | none => none
  | some (.ok v, s2) => some (.ok v, s2.removePending ci dt)
  | some (.error (.circularDependency c), s2) =>
      some (.error (.circularDependency c), s2.removePending ci dt)
  | some (.error e, s2) =>
      some (.error (.injectionError dt e), s2.removePending ci dt)

mutual

/-- `Context.provide` (`_context.py` lines 194-250): fetch the current
context, return the mock if the dependency is mocked, otherwise select via
`find_subtype` (which fetches the current context again, as the source
does) and instantiate the subtype — or the dependency itself when no
subtype is registered. -/
def provideD : Nat → Sys → Nat → RunResult
  | 0, _, _ => none
  | fuel + 1, s, dep =>
      let p := s.currentContext
      if p.2.isMocked p.1 (.cls dep) then
        some (.ok (p.2.getMock p.1 (.cls dep)), p.2)
      else
        match p.2.findSubtype dep with
        | (.error e, s2) => some (.error e, s2)
        | (.ok none, s2) => instantiateD fuel s2 p.1 dep
        | (.ok (some sub), s2) => instantiateD fuel s2 p.1 sub
termination_by structural fuel x y => fuel

/-- `Context.provide.instantiate` (`_context.py` lines 222-243): the cycle
guard against `pending`, then `singleton`/`instance` dispatch inside a
`try` whose handlers re-raise `CircularDependency` unchanged and wrap any
other exception as `InjectionError`, with `pending.remove` in `finally`.
The singleton branch (`lines 204-213`) returns the cached instance or
constructs and caches one. -/
def instantiateD : Nat → Sys → Nat → Nat → RunResult
  | 0, _, _, _ => none
  | fuel + 1, s, ci, dt =>
      if dt ∈ (s.getCtx ci).state.pending then
        some (.error (.circularDependency dt), s)
      else
        let s1 := s.addPending ci dt
        wrapTry dt ci
          (if (getClass s1.classes dt).singletonAttr then
            match (s1.getCtx ci).state.singletons.lookup (MockKey.cls dt) with
            | some v => some (.ok v, s1)
            | none =>
                match constructD fuel s1 dt with
                | some (.ok v, s2) => some (.ok v, s2.addSingleton ci dt v)
                | r => r
          else constructD fuel s1 dt)
termination_by structural fuel x y z => fuel

/-- `dependency_type()` for a class the binder decorated: allocate the
object, run the decorated `__init__` (store each annotated dependency via
`__set_dependency`), then the user `__init__` body, which for the
`forceFields` classes reads every bound field and thereby re-raises the
first stored exception.  A non-constructible (abstract) class raises
`TypeError` before any of that. -/
def constructD : Nat → Sys → Nat → RunResult
  | 0, _, _ => none
  | fuel + 1, s, dt =>
      let cls := getClass s.classes dt
      if !cls.constructible then some (.error (.typeError dt), s)
      else
        let oid := s.nextObj
        let s1 : Sys :=
          { s with objs := updateAssoc s.objs oid ⟨dt, []⟩, nextObj := s.nextObj + 1 }
        match setFieldsD fuel s1 oid cls.fields with
        | none => none
        | some s2 =>
            if cls.forceFields then
              match readFieldsErr s2 oid cls.fields with
              | some e => some (.error e, s2)
              | none => some (.ok (.obj oid dt), s2)
            else some (.ok (.obj oid dt), s2)
termination_by structural fuel x y => fuel

/-- The loop of `__decorate_init` over `__dependencies__`
(`_inject.py` lines 64-77), each step being `__set_dependency`
(lines 24-39): resolve the annotated dependency, catching *any* exception
and storing it as the attribute value. -/
def setFieldsD : Nat → Sys → Nat → List (String × Nat) → Option Sys
  | _, s, _, [] => some s
  | 0, _, _, _ :: _ => none
  | fuel + 1, s, oid, (n, depc) :: rest =>
      match provideD fuel s depc with
      | none => none
      | some (.ok v, s1) => setFieldsD fuel (setattrD s1 oid n v) oid rest
      | some (.error e, s1) => setFieldsD fuel (setattrD s1 oid n (.exc e)) oid rest
termination_by structural fuel x y z => fuel

end

/-- The module-level `provide` of `_context.py` (lines 290-293) specialised
to a `Key` configuration: a named lookup on the current context. -/
def provideNamed (s : Sys) (nm : String) : Except SerumError Value × Sys :=
  let p := s.currentContext
  (p.2.getitem p.1 nm, p.2)

/-- Forget the final world of a run, keeping only the raised-or-returned
outcome. -/
def resOf (r : RunResult) : Option (Except SerumError Value) :=
  r.map Prod.fst

/-- The run's final world, with a fallback for failed runs. -/
def afterSys (r : RunResult) (dflt : Sys) : Sys :=
  (r.getD (.ok (.lit ""), dflt)).2

/-- The registry entries of the active context that are subtypes of the
requested component — the `subtypes` list of `Context.find_subtype`. -/
def subtypesOf (s : Sys) (ci component : Nat) : List Nat :=
  (s.getCtx ci).registry.filter (fun c => issubclassB s.classes c component)

/-- Their MRO distances — the `distances` list of `Context.find_subtype`. -/
def distancesOf (s : Sys) (ci component : Nat) : List Nat :=
  (subtypesOf s ci component).map (mroDistance s.classes component)

/-- The ambiguity test of `Context.find_subtype`: some MRO distance occurs
more than once among the candidates. -/
def hasTie (s : Sys) (ci component : Nat) : Bool :=
  (distancesOf s ci component).any (fun d => (distancesOf s ci component).count d > 1)

/-- The candidates named by `AmbiguousDependencies`: those whose MRO
distance is shared with another candidate. -/
def tiedOf (s : Sys) (ci component : Nat) : List Nat :=
  (subtypesOf s ci component).filter
    (fun c => (distancesOf s ci component).count (mroDistance s.classes component c) > 1)

/-- The pending set of a context, as provide observes it. -/
def pendOf (s : Sys) (ci : Nat) : List Nat :=
  (s.getCtx ci).state.pending

/-- What a resolver run can never change about the world under an active
scope `ci`: the thread-local current pointer, the class table, and the
active context's mock table, registry and named dependencies.  (The
pending set is tracked separately because `instantiate` mutates it
mid-flight and only restores it at the end.) -/
structure Pres0 (ci : Nat) (s s' : Sys) : Prop where
  cur : s'.current = s.current
  clsEq : s'.classes = s.classes
  mocksEq : (s'.getCtx ci).state.mocks = (s.getCtx ci).state.mocks
  regEq : (s'.getCtx ci).registry = (s.getCtx ci).registry
  namedEq : (s'.getCtx ci).named = (s.getCtx ci).named

/-- Replace the registry of one stored context (used to state
registration-order independence). -/
def Sys.setRegistry (s : Sys) (ci : Nat) (r : List Nat) : Sys :=
  s.setCtx ci { s.getCtx ci with registry := r }

/-! Concrete scenarios used by counterexamples and witnesses.  Class ids:
`Base = 0`, `ConcreteA = 1` and `ConcreteB = 2` (direct subclasses of
`Base`), `ConcreteASub = 3` (subclass of `ConcreteA`); `9` an abstract
class; `30` a singleton class, `31` a plain class; `10`/`11` a pure
field-bound cycle; `20-24` the classes of
`test_context.py::test_circular_dependency`. -/

def hierClasses : List PyClass := [
  ⟨0, [0], false, true, [], false, true⟩,
  ⟨1, [1, 0], false, true, [], false, true⟩,
  ⟨2, [2, 0], false, true, [], false, true⟩,
  ⟨3, [3, 1, 0], false, true, [], false, true⟩]

/-- An entered scope registering `ConcreteA`, `ConcreteB`, `ConcreteASub`:
the first two tie at MRO distance 1 from `Base`, the third is strictly
more specific (distance 2). -/
def sysTie : Sys :=
  { classes := hierClasses, ctxs := [(0, { registry := [1, 2, 3] })],
    current := some 0, nextCtx := 1 }

/-- An entered scope registering `ConcreteA` and `ConcreteASub` only:
distances from `Base` are 1 and 2, pairwise distinct. -/
def sysChain : Sys :=
  { classes := hierClasses, ctxs := [(0, { registry := [1, 3] })],
    current := some 0, nextCtx := 1 }

/-- An entered scope with an empty registry over `hierClasses`. -/
def sysNoReg : Sys :=
  { classes := hierClasses, ctxs := [(0, {})], current := some 0, nextCtx := 1 }

def absClasses : List PyClass := [⟨9, [9], false, true, [], false, false⟩]

/-- An entered scope with an empty registry whose class table holds only
the abstract class `9`. -/
def sysAbs : Sys :=
  { classes := absClasses, ctxs := [(0, {})], current := some 0, nextCtx := 1 }

def singClasses : List PyClass := [⟨30, [30], true, true, [], false, true⟩]

/-- `with Context(): ...` over `singClasses`: construct an empty context
and enter it on a thread with no active scope. -/
def singScopeSys : Sys :=
  (((Sys.mk singClasses [] [] none 0 0).newContext [] []).2).enter 0

/-- The world after the first `provide` of the singleton class `30`. -/
def singAfter1 : Sys := afterSys (provideD 5 singScopeSys 30) singScopeSys

/-- The world after the second `provide` of the singleton class `30`. -/
def singAfter2 : Sys := afterSys (provideD 5 singAfter1 30) singAfter1

/-- The world after exiting the scope and re-entering the same context. -/
def singReenter : Sys := (singAfter2.exitCtx 0).enter 0

def mixClasses : List PyClass :=
  [⟨30, [30], true, true, [], false, true⟩, ⟨31, [31], false, true, [], false, true⟩]

/-- An active parent scope whose state holds one singleton entry (class
`30` → instance `obj 5`) and one mock entry (class `31` → `mockV 7`),
plus a constructed-but-not-yet-entered child context `1`. -/
def parentSys : Sys :=
  { classes := mixClasses,
    ctxs := [(0, { state := { pending := [],
                              mocks := [(.cls 31, .mockV 7)],
                              singletons := [(.cls 30, .obj 5 30)] } }),
             (1, {})],
    current := some 0, nextCtx := 2, nextObj := 8 }

/-- A thread with no active scope over `hierClasses`. -/
def noScopeSys : Sys := { classes := hierClasses }

def cycPureClasses : List PyClass := [
  ⟨10, [10], false, true, [("b", 11)], false, true⟩,
  ⟨11, [11], false, true, [("a", 10)], false, true⟩]

/-- An entered empty scope over the pure two-class field cycle: `10` binds
field `b` to `11`, `11` binds field `a` to `10`, neither initialiser reads
its bound field. -/
def cycPureSys : Sys :=
  { classes := cycPureClasses, ctxs := [(0, {})], current := some 0, nextCtx := 1 }

/-- The world after constructing an instance of class `10` in the pure
cycle scope. -/
def cycPureAfter : Sys := afterSys (constructD 30 cycPureSys 10) cycPureSys

def cycForceClasses : List PyClass := [
  ⟨20, [20], false, true, [], false, true⟩,
  ⟨21, [21], false, true, [], false, true⟩,
  ⟨22, [22, 20], false, true, [("b", 21)], true, true⟩,
  ⟨23, [23, 21], false, true, [("a", 20)], true, true⟩,
  ⟨24, [24], false, true, [("a", 20)], false, true⟩]

/-- The scope of `test_context.py::test_circular_dependency`: registry
`[A, B]` = `[22, 23]`, where `A(AbstractA)` binds `b : AbstractB` and
`B(AbstractB)` binds `a : AbstractA`, both initialisers reading the bound
field; `Dependent` (`24`) binds `a : AbstractA` without reading it. -/
def cycForceSys : Sys :=
  { classes := cycForceClasses, ctxs := [(0, { registry := [22, 23] })],
    current := some 0, nextCtx := 1 }

/-- The world after constructing a `Dependent` (`24`) instance. -/
def cycDepAfter : Sys := afterSys (constructD 30 cycForceSys 24) cycForceSys

/-- An entered scope over `mixClasses` with one named dependency. -/
def mockScopeSys : Sys :=
  { classes := mixClasses, ctxs := [(0, { named := [("key", .lit "value")] })],
    current := some 0, nextCtx := 1 }

/-- The world after `mock` of the class `31` in `mockScopeSys`. -/
def afterMockCls : Sys :=
  match mockScopeSys.mock (.cls 31) with
  | .ok (_, s) => s
  | .error _ => mockScopeSys

/-- The world after `mock` of the name `key` in `mockScopeSys`. -/
def afterMockNm : Sys :=
  match mockScopeSys.mock (.nm "key") with
  | .ok (_, s) => s
  | .error _ => mockScopeSys

section AssocLemmas

variable {α β : Type} [DecidableEq α]

theorem lookup_updateAssoc_self (l : List (α × β)) (k : α) (v : β) :
    (updateAssoc l k v).lookup k = some v := by
  induction l with
  | nil => simp [updateAssoc, List.lookup]
  | cons p t ih =>
      obtain ⟨a, b⟩ := p
      by_cases h : a = k
      · simp [updateAssoc, h, List.lookup]
      · have hne : (k == a) = false := by
          simp [beq_iff_eq]; exact fun hk => h hk.symm
        simp [updateAssoc, h, List.lookup, hne, ih]

theorem lookup_updateAssoc_ne (l : List (α × β)) (k k' : α) (v : β) (h : k' ≠ k) :
    (updateAssoc l k v).lookup k' = l.lookup k' := by
  have hb : (k' == k) = false := beq_eq_false_iff_ne.mpr h
  induction l with
  | nil => simp [updateAssoc, List.lookup, hb]
  | cons p t ih =>
      obtain ⟨a, b⟩ := p
      by_cases ha : a = k
      · subst ha
        simp [updateAssoc, List.lookup, hb]
      · simp [updateAssoc, ha, List.lookup, ih]

end AssocLemmas

theorem getCtx_setCtx_self (s : Sys) (ci : Nat) (c : Context) :
    (s.setCtx ci c).getCtx ci = c := by
  simp [Sys.setCtx, Sys.getCtx, lookup_updateAssoc_self]

theorem getCtx_setCtx_ne (s : Sys) (ci ci' : Nat) (c : Context) (h : ci' ≠ ci) :
    (s.setCtx ci c).getCtx ci' = s.getCtx ci' := by
  simp [Sys.setCtx, Sys.getCtx, lookup_updateAssoc_ne _ _ _ _ h]

theorem currentContext_of_some (s : Sys) (ci : Nat) (h : s.current = some ci) :
    s.currentContext = (ci, s) := by
  simp [Sys.currentContext, h]

theorem findSubtype_of_some (s : Sys) (ci : Nat) (component : Nat)
    (h : s.current = some ci) :
    s.findSubtype component =
      if hasTie s ci component then
        (.error (.ambiguousDependencies component (tiedOf s ci component)), s)
      else if (subtypesOf s ci component).isEmpty then (.ok none, s)
      else (.ok (pyMax (mroDistance s.classes component) (subtypesOf s ci component)),
            s) := by
  rw [Sys.findSubtype, currentContext_of_some s ci h]
  simp only [hasTie, tiedOf, subtypesOf, distancesOf]

theorem current_setCtx (s : Sys) (ci : Nat) (c : Context) :
    (s.setCtx ci c).current = s.current := rfl

theorem current_addPending (s : Sys) (ci dt : Nat) :
    (s.addPending ci dt).current = s.current := rfl

theorem current_removePending (s : Sys) (ci dt : Nat) :
    (s.removePending ci dt).current = s.current := rfl

theorem current_addSingleton (s : Sys) (ci dt : Nat) (v : Value) :
    (s.addSingleton ci dt v).current = s.current := rfl

theorem current_setattrD (s : Sys) (oid : Nat) (nm : String) (v : Value) :
    (setattrD s oid nm v).current = s.current := by
  cases h : s.objs.lookup oid <;> simp [setattrD, h]

theorem ctxs_setattrD (s : Sys) (oid : Nat) (nm : String) (v : Value) :
    (setattrD s oid nm v).ctxs = s.ctxs := by
  cases h : s.objs.lookup oid <;> simp [setattrD, h]

theorem pendOf_setattrD (s : Sys) (oid : Nat) (nm : String) (v : Value) (ci : Nat) :
    pendOf (setattrD s oid nm v) ci = pendOf s ci := by
  simp [pendOf, Sys.getCtx, ctxs_setattrD]

theorem pendOf_addPending (s : Sys) (ci dt : Nat) (h : dt ∉ pendOf s ci) :
    pendOf (s.addPending ci dt) ci = dt :: pendOf s ci := by
  simp only [pendOf, Sys.addPending] at *
  rw [getCtx_setCtx_self]
  simp [h]

theorem pendOf_removePending (s : Sys) (ci dt : Nat) :
    pendOf (s.removePending ci dt) ci = (pendOf s ci).erase dt := by
  simp only [pendOf, Sys.removePending]
  rw [getCtx_setCtx_self]

theorem pendOf_addSingleton (s : Sys) (ci dt : Nat) (v : Value) :
    pendOf (s.addSingleton ci dt v) ci = pendOf s ci := by
  simp only [pendOf, Sys.addSingleton]
  rw [getCtx_setCtx_self]

theorem singletons_addPending (s : Sys) (ci dt : Nat) :
    ((s.addPending ci dt).getCtx ci).state.singletons =
      ((s.getCtx ci).state.singletons) := by
  simp only [Sys.addPending]
  rw [getCtx_setCtx_self]

theorem classes_addPending (s : Sys) (ci dt : Nat) :
    (s.addPending ci dt).classes = s.classes := rfl

theorem nextObj_addPending (s : Sys) (ci dt : Nat) :
    (s.addPending ci dt).nextObj = s.nextObj := rfl

/-- CPython's `max(_, key=f)` keeps a running best, replacing it only on a
strictly greater key; the fold from `some a` lands on an element that keys
at least `a` and every traversed element. -/
theorem pyMax_go_spec (f : Nat → Nat) :
    ∀ (l : List Nat) (a : Nat), ∃ r, l.foldl (pyMaxStep f) (some a) = some r ∧
      (r = a ∨ r ∈ l) ∧ f a ≤ f r ∧ ∀ y ∈ l, f y ≤ f r := by
  intro l
  induction l with
  | nil => exact fun a => ⟨a, rfl, Or.inl rfl, le_refl _, by simp⟩
  | cons x xs ih =>
      intro a
      by_cases hx : f x > f a
      · obtain ⟨r, h1, h2, h3, h4⟩ := ih x
        refine ⟨r, ?_, ?_, le_trans (le_of_lt hx) h3, ?_⟩
        · simpa [pyMaxStep, hx] using h1
        · rcases h2 with h | h
          · exact Or.inr (by simp [h])
          · exact Or.inr (by simp [h])
        · intro y hy
          rcases List.mem_cons.mp hy with rfl | hy
          · exact h3
          · exact h4 y hy
      · obtain ⟨r, h1, h2, h3, h4⟩ := ih a
        refine ⟨r, ?_, ?_, h3, ?_⟩
        · simpa [pyMaxStep, hx] using h1
        · rcases h2 with h | h
          · exact Or.inl h
          · exact Or.inr (by simp [h])
        · intro y hy
          rcases List.mem_cons.mp hy with rfl | hy
          · exact le_trans (Nat.le_of_not_lt hx) h3
          · exact h4 y hy

/-- When one element strictly dominates all others in key (keys are
injective on the list), `max(_, key=f)` returns it — in particular the
result does not depend on the order of the list. -/
theorem pyMax_eq_of_unique_max (f : Nat → Nat) (l : List Nat) (m : Nat)
    (hm : m ∈ l) (hmax : ∀ y ∈ l, f y ≤ f m)
    (hinj : ∀ a ∈ l, ∀ b ∈ l, f a = f b → a = b) :
    pyMax f l = some m := by
  cases l with
  | nil => cases hm
  | cons x xs =>
      obtain ⟨r, h1, h2, h3, h4⟩ := pyMax_go_spec f xs x
      have hfoldl : pyMax f (x :: xs) = some r := by
        simpa [pyMax, pyMaxStep] using h1
      have hrmem : r ∈ x :: xs := by
        rcases h2 with rfl | h
        · exact List.mem_cons_self _ _
        · exact List.mem_cons_of_mem _ h
      have hle : f m ≤ f r := by
        rcases List.mem_cons.mp hm with rfl | hm'
        · exact h3
        · exact h4 m hm'
      have heq : f r = f m := le_antisymm (hmax r hrmem) hle
      rw [hfoldl, hinj r hrmem m hm heq]

/-- With a duplicate-free registry (a Python set) and pairwise distinct
specificities, the `Counter`-based ambiguity test of `find_subtype` is
quiet. -/
theorem hasTie_false_of_inj (s : Sys) (ci T : Nat)
    (hnd : (s.getCtx ci).registry.Nodup)
    (hinj : ∀ a ∈ subtypesOf s ci T, ∀ b ∈ subtypesOf s ci T,
        mroDistance s.classes T a = mroDistance s.classes T b → a = b) :
    hasTie s ci T = false := by
  have hsub : (subtypesOf s ci T).Nodup := hnd.filter _
  have hmapn : (distancesOf s ci T).Nodup := hsub.map_on hinj
  have hcount := List.nodup_iff_count_le_one.mp hmapn
  simp only [hasTie, List.any_eq_false, decide_eq_true_eq]
  intro d _
  exact Nat.not_lt.mpr (hcount d)

/-- Instantiating a plain class (not singleton-marked, constructible, no
bound fields, not mid-construction) yields a fresh instance of exactly
that class. -/
theorem instantiateD_plain (fuel : Nat) (s : Sys) (ci dt : Nat)
    (hp : dt ∉ pendOf s ci)
    (hsing : (getClass s.classes dt).singletonAttr = false)
    (hcons : (getClass s.classes dt).constructible = true)
    (hfld : (getClass s.classes dt).fields = []) :
    ∃ s', instantiateD (fuel + 2) s ci dt = some (.ok (.obj s.nextObj dt), s') := by
  simp only [pendOf] at hp
  simp only [instantiateD]
  simp only [hp, if_false, classes_addPending, hsing, Bool.false_eq_true, if_neg,
    not_false_iff]
  simp only [constructD, classes_addPending, hcons, Bool.not_true, Bool.false_eq_true,
    if_false, hfld, nextObj_addPending, setFieldsD]
  cases hf : (getClass s.classes dt).forceFields <;>
    simp only [hf, Bool.false_eq_true, if_false, if_true, readFieldsErr] <;>
    exact ⟨_, rfl⟩

/-- Inverting the `try`/`finally` wrapper: a finished wrapped run comes
from a finished body, and the final world is the body's world with the
dependency removed from pending. -/
theorem wrapTry_inv (dt ci : Nat) (body : RunResult) (r : Except SerumError Value)
    (s' : Sys) (h : wrapTry dt ci body = some (r, s')) :
    ∃ res s2, body = some (res, s2) ∧ s' = s2.removePending ci dt := by
  match body with
  | none => simp [wrapTry] at h
  | some (.ok v, s2) =>
      simp only [wrapTry, Option.some.injEq, Prod.mk.injEq] at h
      exact ⟨.ok v, s2, rfl, h.2.symm⟩
  | some (.error e, s2) =>
      cases e <;> simp only [wrapTry, Option.some.injEq, Prod.mk.injEq] at h <;>
        exact ⟨.error _, s2, rfl, h.2.symm⟩

/-- The wrapper never lets an `AmbiguousDependencies` escape: the handlers
turn every body exception into `CircularDependency` or `InjectionError`. -/
theorem wrapTry_not_ambiguous (dt ci : Nat) (body : RunResult)
    (e : SerumError) (s' : Sys) (h : wrapTry dt ci body = some (.error e, s'))
    (comp : Nat) (l : List Nat) : e ≠ .ambiguousDependencies comp l := by
  match body with
  | none => simp [wrapTry] at h
  | some (.ok v, s2) => simp [wrapTry] at h
  | some (.error e2, s2) =>
      cases e2 <;>
        simp only [wrapTry, Option.some.injEq, Prod.mk.injEq,
          Except.error.injEq] at h <;>
        rcases h with ⟨h1, -⟩ <;> subst h1 <;> simp

/-- `provide` on a mocked dependency returns the stored mock at once. -/
theorem provideD_mocked_eq (fuel : Nat) (s : Sys) (ci dep : Nat)
    (hcur : s.current = some ci) (hmock : s.isMocked ci (.cls dep) = true) :
    provideD (fuel + 1) s dep = some (.ok (s.getMock ci (.cls dep)), s) := by
  simp only [provideD, currentContext_of_some s ci hcur, hmock, if_true]

/-- `provide` when `find_subtype` detects tied specificities: the
`AmbiguousDependencies` from `find_subtype` propagates, naming the tied
candidates, and the world is unchanged. -/
theorem provideD_ambiguous_eq (fuel : Nat) (s : Sys) (ci dep : Nat)
    (hcur : s.current = some ci) (hmock : s.isMocked ci (.cls dep) = false)
    (ht : hasTie s ci dep = true) :
    provideD (fuel + 1) s dep =
      some (.error (.ambiguousDependencies dep (tiedOf s ci dep)), s) := by
  simp only [provideD, currentContext_of_some s ci hcur, hmock,
    Bool.false_eq_true, if_false, findSubtype_of_some s ci dep hcur, ht, if_true]

/-- `provide` when no registered subtype exists: fall back to
instantiating the requested type itself. -/
theorem provideD_fallback_eq (fuel : Nat) (s : Sys) (ci dep : Nat)
    (hcur : s.current = some ci) (hmock : s.isMocked ci (.cls dep) = false)
    (ht : hasTie s ci dep = false) (he : (subtypesOf s ci dep).isEmpty = true) :
    provideD (fuel + 1) s dep = instantiateD fuel s ci dep := by
  simp only [provideD, currentContext_of_some s ci hcur, hmock,
    Bool.false_eq_true, if_false, findSubtype_of_some s ci dep hcur, ht, he, if_true]

/-- `provide` when `find_subtype` selects a candidate: instantiate it. -/
theorem provideD_select_eq (fuel : Nat) (s : Sys) (ci dep m : Nat)
    (hcur : s.current = some ci) (hmock : s.isMocked ci (.cls dep) = false)
    (ht : hasTie s ci dep = false) (he : (subtypesOf s ci dep).isEmpty = false)
    (hpm : pyMax (mroDistance s.classes dep) (subtypesOf s ci dep) = some m) :
    provideD (fuel + 1) s dep = instantiateD fuel s ci m := by
  simp only [provideD, currentContext_of_some s ci hcur, hmock,
    Bool.false_eq_true, if_false, findSubtype_of_some s ci dep hcur, ht, he, hpm,
    if_true]

/-- `instantiate` never raises `AmbiguousDependencies` itself: the cycle
guard raises `CircularDependency` and the handlers produce only
`CircularDependency` or `InjectionError`. -/
theorem instantiateD_error_not_ambiguous (fuel : Nat) (s : Sys) (ci dt : Nat)
    (e : SerumError) (s' : Sys) (h : instantiateD fuel s ci dt = some (.error e, s'))
    (comp : Nat) (l : List Nat) : e ≠ .ambiguousDependencies comp l := by
  cases fuel with
  | zero => simp [instantiateD] at h
  | succ f =>
      simp only [instantiateD] at h
      by_cases hdt : dt ∈ (s.getCtx ci).state.pending
      · simp only [hdt, if_true] at h
        rcases Option.some.inj h with h1
        rcases Prod.mk.injEq .. ▸ h1 with ⟨h2, -⟩
        rcases Except.error.inj h2 with h3
        subst h3
        simp
      · simp only [hdt, if_false] at h
        exact wrapTry_not_ambiguous _ _ _ _ _ h comp l

theorem pres0_refl (ci : Nat) (s : Sys) : Pres0 ci s s :=
  ⟨rfl, rfl, rfl, rfl, rfl⟩

theorem pres0_trans {ci : Nat} {s t u : Sys} (h1 : Pres0 ci s t)
    (h2 : Pres0 ci t u) : Pres0 ci s u :=
  ⟨h2.cur.trans h1.cur, h2.clsEq.trans h1.clsEq, h2.mocksEq.trans h1.mocksEq,
   h2.regEq.trans h1.regEq, h2.namedEq.trans h1.namedEq⟩

theorem pres0_addPending (ci : Nat) (s : Sys) (dt : Nat) :
    Pres0 ci s (s.addPending ci dt) := by
  refine ⟨rfl, rfl, ?_, ?_, ?_⟩ <;>
    simp only [Sys.addPending, getCtx_setCtx_self]

theorem pres0_removePending (ci : Nat) (s : Sys) (dt : Nat) :
    Pres0 ci s (s.removePending ci dt) := by
  refine ⟨rfl, rfl, ?_, ?_, ?_⟩ <;>
    simp only [Sys.removePending, getCtx_setCtx_self]

theorem pres0_addSingleton (ci : Nat) (s : Sys) (dt : Nat) (v : Value) :
    Pres0 ci s (s.addSingleton ci dt v) := by
  refine ⟨rfl, rfl, ?_, ?_, ?_⟩ <;>
    simp only [Sys.addSingleton, getCtx_setCtx_self]

theorem getCtx_setattrD (s : Sys) (oid : Nat) (nm : String) (v : Value) (ci : Nat) :
    (setattrD s oid nm v).getCtx ci = s.getCtx ci := by
  simp [Sys.getCtx, ctxs_setattrD]

theorem classes_setattrD (s : Sys) (oid : Nat) (nm : String) (v : Value) :
    (setattrD s oid nm v).classes = s.classes := by
  cases h : s.objs.lookup oid <;> simp [setattrD, h]

theorem pres0_setattrD (ci : Nat) (s : Sys) (oid : Nat) (nm : String) (v : Value) :
    Pres0 ci s (setattrD s oid nm v) := by
  refine ⟨current_setattrD .., classes_setattrD .., ?_, ?_, ?_⟩ <;>
    simp only [getCtx_setattrD]

theorem pres0_objsUpdate (ci : Nat) (s : Sys) (objs2 : List (Nat × PyObj))
    (n2 : Nat) : Pres0 ci s { s with objs := objs2, nextObj := n2 } :=
  ⟨rfl, rfl, rfl, rfl, rfl⟩

theorem Pres0.isMocked_eq {ci : Nat} {s s' : Sys} (h : Pres0 ci s s') (k : MockKey) :
    s'.isMocked ci k = s.isMocked ci k := by
  simp only [Sys.isMocked, h.mocksEq]

theorem Pres0.subtypesOf_eq {ci : Nat} {s s' : Sys} (h : Pres0 ci s s') (T : Nat) :
    subtypesOf s' ci T = subtypesOf s ci T := by
  simp only [subtypesOf, h.regEq, h.clsEq]

/-- Joint invariant of the four mutually recursive runners under an active
scope: `Pres0` holds (current pointer, class table, mocks, registry, named
dependencies untouched) and the pending set is restored exactly —
`instantiate` adds the dependency before construction and the `finally`
block removes it again on every path. -/
theorem preserveAll (ci : Nat) : ∀ fuel : Nat,
    (∀ s dep r s', s.current = some ci → provideD fuel s dep = some (r, s') →
        Pres0 ci s s' ∧ pendOf s' ci = pendOf s ci)
  ∧ (∀ s dt r s', s.current = some ci → instantiateD fuel s ci dt = some (r, s') →
        Pres0 ci s s' ∧ pendOf s' ci = pendOf s ci)
  ∧ (∀ s dt r s', s.current = some ci → constructD fuel s dt = some (r, s') →
        Pres0 ci s s' ∧ pendOf s' ci = pendOf s ci)
  ∧ (∀ s oid fs s', s.current = some ci → setFieldsD fuel s oid fs = some s' →
        Pres0 ci s s' ∧ pendOf s' ci = pendOf s ci) := by
  intro fuel
  induction fuel with
  | zero =>
      refine ⟨?_, ?_, ?_, ?_⟩
      · intro s dep r s' _ h; simp [provideD] at h
      · intro s dt r s' _ h; simp [instantiateD] at h
      · intro s dt r s' _ h; simp [constructD] at h
      · intro s oid fs s' hcur h
        cases fs with
        | nil =>
            simp only [setFieldsD, Option.some.injEq] at h
            subst h; exact ⟨pres0_refl ci s, rfl⟩
        | cons a t => simp [setFieldsD] at h
  | succ fuel ih =>
      obtain ⟨ihP, ihI, ihC, ihF⟩ := ih
      refine ⟨?_, ?_, ?_, ?_⟩
      · -- provideD
        intro s dep r s' hcur h
        by_cases hm : s.isMocked ci (.cls dep)
        · rw [provideD_mocked_eq fuel s ci dep hcur hm] at h
          rcases Option.some.inj h with h1
          rcases Prod.mk.injEq .. ▸ h1 with ⟨-, h2⟩
          subst h2; exact ⟨pres0_refl ci s, rfl⟩
        · rw [Bool.not_eq_true] at hm
          by_cases ht : hasTie s ci dep
          · rw [provideD_ambiguous_eq fuel s ci dep hcur hm ht] at h
            rcases Option.some.inj h with h1
            rcases Prod.mk.injEq .. ▸ h1 with ⟨-, h2⟩
            subst h2; exact ⟨pres0_refl ci s, rfl⟩
          · rw [Bool.not_eq_true] at ht
            by_cases he : (subtypesOf s ci dep).isEmpty
            · rw [provideD_fallback_eq fuel s ci dep hcur hm ht he] at h
              exact ihI s dep r s' hcur h
            · rw [Bool.not_eq_true] at he
              cases hpm : pyMax (mroDistance s.classes dep) (subtypesOf s ci dep) with
              | none =>
                  rw [provideD] at h
                  simp only [currentContext_of_some s ci hcur, hm,
                    Bool.false_eq_true, if_false,
                    findSubtype_of_some s ci dep hcur, ht, he, hpm] at h
                  exact ihI s dep r s' hcur h
              | some sub =>
                  rw [provideD_select_eq fuel s ci dep sub hcur hm ht he hpm] at h
                  exact ihI s sub r s' hcur h
      · -- instantiateD
        intro s dt r s' hcur h
        simp only [instantiateD] at h
        by_cases hdt : dt ∈ (s.getCtx ci).state.pending
        · simp only [hdt, if_true] at h
          rcases Option.some.inj h with h1
          rcases Prod.mk.injEq .. ▸ h1 with ⟨-, h2⟩
          subst h2; exact ⟨pres0_refl ci s, rfl⟩
        · simp only [hdt, if_false] at h
          obtain ⟨res, s2, hbody, hs'⟩ := wrapTry_inv _ _ _ _ _ h
          have hs1cur : (s.addPending ci dt).current = some ci := by
            rw [current_addPending]; exact hcur
          have hs1pend : pendOf (s.addPending ci dt) ci = dt :: pendOf s ci :=
            pendOf_addPending s ci dt (by simpa [pendOf] using hdt)
          have key : Pres0 ci s s2 ∧ pendOf s2 ci = dt :: pendOf s ci := by
            by_cases hsg : (getClass (s.addPending ci dt).classes dt).singletonAttr
            · simp only [hsg, if_true] at hbody
              cases hlk : ((s.addPending ci dt).getCtx ci).state.singletons.lookup
                  (MockKey.cls dt) with
              | some v =>
                  rw [hlk] at hbody
                  rcases Option.some.inj hbody with h1
                  rcases Prod.mk.injEq .. ▸ h1 with ⟨-, h2⟩
                  rw [← h2]
                  exact ⟨pres0_addPending ci s dt, hs1pend⟩
              | none =>
                  rw [hlk] at hbody
                  cases hc : constructD fuel (s.addPending ci dt) dt with
                  | none => rw [hc] at hbody; cases hbody
                  | some pr =>
                      obtain ⟨cres, s3⟩ := pr
                      obtain ⟨h3p, h3pend⟩ := ihC _ _ _ _ hs1cur hc
                      rw [hs1pend] at h3pend
                      cases cres with
                      | ok v =>
                          rw [hc] at hbody
                          rcases Option.some.inj hbody with h1
                          rcases Prod.mk.injEq .. ▸ h1 with ⟨-, h2⟩
                          rw [← h2]
                          refine ⟨pres0_trans (pres0_addPending ci s dt)
                            (pres0_trans h3p (pres0_addSingleton ci s3 dt v)), ?_⟩
                          rw [pendOf_addSingleton]; exact h3pend
                      | error e =>
                          rw [hc] at hbody
                          rcases Option.some.inj hbody with h1
                          rcases Prod.mk.injEq .. ▸ h1 with ⟨-, h2⟩
                          rw [← h2]
                          exact ⟨pres0_trans (pres0_addPending ci s dt) h3p, h3pend⟩
            · simp only [hsg, if_false] at hbody
              obtain ⟨h3p, h3pend⟩ := ihC _ _ _ _ hs1cur hbody
              rw [hs1pend] at h3pend
              exact ⟨pres0_trans (pres0_addPending ci s dt) h3p, h3pend⟩
          subst hs'
          refine ⟨pres0_trans key.1 (pres0_removePending ci s2 dt), ?_⟩
          rw [pendOf_removePending, key.2, List.erase_cons_head]
      · -- constructD
        intro s dt r s' hcur h
        simp only [constructD] at h
        by_cases hc : (getClass s.classes dt).constructible
        · simp only [hc, Bool.not_true, Bool.false_eq_true, if_false] at h
          cases hsf : setFieldsD fuel
              { s with objs := updateAssoc s.objs s.nextObj ⟨dt, []⟩,
                       nextObj := s.nextObj + 1 } s.nextObj
              (getClass s.classes dt).fields with
          | none => rw [hsf] at h; cases h
          | some s2 =>
              rw [hsf] at h
              obtain ⟨h2p, h2pend⟩ := ihF _ _ _ _ (by simpa using hcur) hsf
              have hfin : s' = s2 := by
                by_cases hff : (getClass s.classes dt).forceFields
                · simp only [hff, if_true] at h
                  cases hre : readFieldsErr s2 s.nextObj (getClass s.classes dt).fields with
                  | some e =>
                      rw [hre] at h
                      rcases Option.some.inj h with h1
                      exact (Prod.mk.injEq .. ▸ h1).2.symm
                  | none =>
                      rw [hre] at h
                      rcases Option.some.inj h with h1
                      exact (Prod.mk.injEq .. ▸ h1).2.symm
                · simp only [hff, Bool.false_eq_true, if_false] at h
                  rcases Option.some.inj h with h1
                  exact (Prod.mk.injEq .. ▸ h1).2.symm
              subst hfin
              refine ⟨pres0_trans (pres0_objsUpdate ci s _ _) h2p, ?_⟩
              rw [h2pend]
              simp [pendOf, Sys.getCtx]
        · simp only [hc, Bool.not_false, if_true] at h
          rcases Option.some.inj h with h1
          rcases Prod.mk.injEq .. ▸ h1 with ⟨-, h2⟩
          subst h2; exact ⟨pres0_refl ci s, rfl⟩
      · -- setFieldsD
        intro s oid fs s' hcur h
        cases fs with
        | nil =>
            simp only [setFieldsD, Option.some.injEq] at h
            subst h; exact ⟨pres0_refl ci s, rfl⟩
        | cons p rest =>
            obtain ⟨n, depc⟩ := p
            simp only [setFieldsD] at h
            cases hp : provideD fuel s depc with
            | none => rw [hp] at h; cases h
            | some pr =>
                obtain ⟨pres, s1⟩ := pr
                obtain ⟨h1p, h1pend⟩ := ihP _ _ _ _ hcur hp
                cases pres with
                | ok v =>
                    rw [hp] at h
                    obtain ⟨h2p, h2pend⟩ := ihF _ _ _ _
                      (by rw [current_setattrD]; exact h1p.cur.trans hcur) h
                    refine ⟨pres0_trans h1p
                      (pres0_trans (pres0_setattrD ci s1 oid n _) h2p), ?_⟩
                    rw [h2pend, pendOf_setattrD, h1pend]
                | error e =>
                    rw [hp] at h
                    obtain ⟨h2p, h2pend⟩ := ihF _ _ _ _
                      (by rw [current_setattrD]; exact h1p.cur.trans hcur) h
                    refine ⟨pres0_trans h1p
                      (pres0_trans (pres0_setattrD ci s1 oid n _) h2p), ?_⟩
                    rw [h2pend, pendOf_setattrD, h1pend]

theorem classes_setCtx (s : Sys) (ci : Nat) (c : Context) :
    (s.setCtx ci c).classes = s.classes := rfl

theorem getCtx_setRegistry_self (s : Sys) (ci : Nat) (r : List Nat) :
    (s.setRegistry ci r).getCtx ci = { s.getCtx ci with registry := r } :=
  getCtx_setCtx_self ..

theorem subtypesOf_setRegistry (s : Sys) (ci T : Nat) (r : List Nat) :
    subtypesOf (s.setRegistry ci r) ci T =
      r.filter (fun c => issubclassB s.classes c T) := by
  simp only [subtypesOf, Sys.setRegistry, classes_setCtx, getCtx_setCtx_self]

theorem isMocked_setRegistry (s : Sys) (ci : Nat) (r : List Nat) (k : MockKey) :
    (s.setRegistry ci r).isMocked ci k = s.isMocked ci k := by
  simp [Sys.isMocked, getCtx_setRegistry_self]

theorem pendOf_setRegistry (s : Sys) (ci : Nat) (r : List Nat) :
    pendOf (s.setRegistry ci r) ci = pendOf s ci := by
  simp [pendOf, getCtx_setRegistry_self]

/-- Core computation behind C1: under an active scope, with a mock-free
request, a duplicate-free registry and pairwise distinct specificities, a
candidate dominating every other candidate in MRO distance is the one
`provide` instantiates. -/
theorem provide_unique_max_core (fuel : Nat) (s : Sys) (ci T m : Nat)
    (hcur : s.current = some ci)
    (hmock : s.isMocked ci (.cls T) = false)
    (hnd : (s.getCtx ci).registry.Nodup)
    (hm : m ∈ subtypesOf s ci T)
    (hmax : ∀ y ∈ subtypesOf s ci T,
        mroDistance s.classes T y ≤ mroDistance s.classes T m)
    (hinj : ∀ a ∈ subtypesOf s ci T, ∀ b ∈ subtypesOf s ci T,
        mroDistance s.classes T a = mroDistance s.classes T b → a = b)
    (hp : m ∉ pendOf s ci)
    (hsing : (getClass s.classes m).singletonAttr = false)
    (hcons : (getClass s.classes m).constructible = true)
    (hfld : (getClass s.classes m).fields = []) :
    ∃ s', provideD (fuel + 3) s T = some (.ok (.obj s.nextObj m), s') := by
  have htie := hasTie_false_of_inj s ci T hnd hinj
  have hne : (subtypesOf s ci T).isEmpty = false := by
    cases hsub : subtypesOf s ci T with
    | nil => rw [hsub] at hm; cases hm
    | cons a t => simp
  have hpm := pyMax_eq_of_unique_max (mroDistance s.classes T) _ m hm hmax hinj
  rw [show fuel + 3 = (fuel + 2) + 1 from rfl,
    provideD_select_eq (fuel + 2) s ci T m hcur hmock htie hne hpm]
  exact instantiateD_plain fuel s ci m hp hsing hcons hfld

/-- C1: for a capability type `T` whose registered subtypes in the active
scope have pairwise distinct specificities (MRO distances), `provide T`
returns an instance of the candidate with the greatest specificity — the
most-derived registered implementation — and the same instance value
results for every registration order of the registry. -/
theorem claim1_provide_most_derived (fuel : Nat) (s : Sys) (ci T m : Nat)
    (hcur : s.current = some ci)
    (hmock : s.isMocked ci (.cls T) = false)
    (hnd : (s.getCtx ci).registry.Nodup)
    (hm : m ∈ subtypesOf s ci T)
    (hmax : ∀ y ∈ subtypesOf s ci T,
        mroDistance s.classes T y ≤ mroDistance s.classes T m)
    (hinj : ∀ a ∈ subtypesOf s ci T, ∀ b ∈ subtypesOf s ci T,
        mroDistance s.classes T a = mroDistance s.classes T b → a = b)
    (hp : m ∉ pendOf s ci)
    (hsing : (getClass s.classes m).singletonAttr = false)
    (hcons : (getClass s.classes m).constructible = true)
    (hfld : (getClass s.classes m).fields = []) :
    (∃ s', provideD (fuel + 3) s T = some (.ok (.obj s.nextObj m), s'))
    ∧ ∀ r', r'.Perm (s.getCtx ci).registry →
        ∃ s', provideD (fuel + 3) (s.setRegistry ci r') T =
          some (.ok (.obj s.nextObj m), s') := by
  constructor
  · exact provide_unique_max_core fuel s ci T m hcur hmock hnd hm hmax hinj hp
      hsing hcons hfld
  · intro r' hperm
    have hsubsP : (subtypesOf (s.setRegistry ci r') ci T).Perm (subtypesOf s ci T) := by
      rw [subtypesOf_setRegistry]
      exact hperm.filter _
    have hmem : ∀ a, a ∈ subtypesOf (s.setRegistry ci r') ci T ↔ a ∈ subtypesOf s ci T :=
      fun a => hsubsP.mem_iff
    exact provide_unique_max_core fuel (s.setRegistry ci r') ci T m
      hcur
      (by rw [isMocked_setRegistry]; exact hmock)
      (by rw [getCtx_setRegistry_self]; exact (hperm.nodup_iff).mpr hnd)
      ((hmem m).mpr hm)
      (fun y hy => hmax y ((hmem y).mp hy))
      (fun a ha b hb => hinj a ((hmem a).mp ha) b ((hmem b).mp hb))
      (by rw [pendOf_setRegistry]; exact hp)
      hsing hcons hfld

/-- C8: for every `provide` call under an active scope, the pending set
after the call equals the pending set before it, whether the call returns
a value or raises an error — the implementation type added before
construction is removed by the `finally` block on every path. -/
theorem claim8_pending_restored (fuel : Nat) (s : Sys) (ci dep : Nat)
    (r : Except SerumError Value) (s' : Sys)
    (hcur : s.current = some ci)
    (h : provideD fuel s dep = some (r, s')) :
    pendOf s' ci = pendOf s ci :=
  ((preserveAll ci fuel).1 s dep r s' hcur h).2

/-- No candidates at all also means no tie. -/
theorem hasTie_of_empty (s : Sys) (ci T : Nat)
    (he : (subtypesOf s ci T).isEmpty = true) : hasTie s ci T = false := by
  rw [List.isEmpty_iff] at he
  simp [hasTie, distancesOf, he]

/-- Instantiating a non-constructible (abstract) class: the `TypeError`
from the constructor call is wrapped as `InjectionError`. -/
theorem instantiateD_abstract (fuel : Nat) (s : Sys) (ci dt : Nat)
    (hp : dt ∉ pendOf s ci)
    (hsing : (getClass s.classes dt).singletonAttr = false)
    (hcons : (getClass s.classes dt).constructible = false) :
    ∃ s', instantiateD (fuel + 2) s ci dt =
      some (.error (.injectionError dt (.typeError dt)), s') := by
  simp only [pendOf] at hp
  simp only [instantiateD]
  simp only [hp, if_false, classes_addPending, hsing, Bool.false_eq_true, if_neg,
    not_false_iff]
  simp only [constructD, classes_addPending, hcons, Bool.not_false, if_true]
  exact ⟨_, rfl⟩

/-- C2 (amended): with an active scope and no mock installed for `T`,
`provide T` raises `AmbiguousDependencies` exactly when some specificity
is shared by two or more registered subtypes of `T` — at any level, not
only the greatest — and the error names exactly the candidates whose
specificity is shared; when all specificities are pairwise distinct the
error is never raised. -/
theorem claim2_ambiguous_iff_tie (fuel : Nat) (s : Sys) (ci T : Nat)
    (hcur : s.current = some ci)
    (hmock : s.isMocked ci (.cls T) = false) :
    (hasTie s ci T = true →
      provideD (fuel + 1) s T =
        some (.error (.ambiguousDependencies T (tiedOf s ci T)), s))
    ∧ (hasTie s ci T = false →
      ∀ comp l s', provideD (fuel + 1) s T ≠
        some (.error (.ambiguousDependencies comp l), s')) := by
  constructor
  · exact fun ht => provideD_ambiguous_eq fuel s ci T hcur hmock ht
  · intro ht comp l s' hcontra
    by_cases he : (subtypesOf s ci T).isEmpty
    · rw [provideD_fallback_eq fuel s ci T hcur hmock ht he] at hcontra
      exact instantiateD_error_not_ambiguous fuel s ci T _ s' hcontra comp l rfl
    · rw [Bool.not_eq_true] at he
      cases hpm : pyMax (mroDistance s.classes T) (subtypesOf s ci T) with
      | none =>
          rw [provideD] at hcontra
          simp only [currentContext_of_some s ci hcur, hmock, Bool.false_eq_true,
            if_false, findSubtype_of_some s ci T hcur, ht, he, hpm] at hcontra
          exact instantiateD_error_not_ambiguous fuel s ci T _ s' hcontra comp l rfl
      | some sub =>
          rw [provideD_select_eq fuel s ci T sub hcur hmock ht he hpm] at hcontra
          exact instantiateD_error_not_ambiguous fuel s ci sub _ s' hcontra comp l rfl

/-- C3 (amended): with no registered subtype, `provide T` falls back to
`T` itself: a constructible plain `T` yields a fresh instance of `T`; a
non-constructible (abstract) `T` fails with `InjectionError` wrapping the
constructor's `TypeError` — not with `UnregisteredDependency`, which this
code path never raises. -/
theorem claim3_unregistered_fallback (fuel : Nat) (s : Sys) (ci T : Nat)
    (hcur : s.current = some ci)
    (hmock : s.isMocked ci (.cls T) = false)
    (he : (subtypesOf s ci T).isEmpty = true)
    (hp : T ∉ pendOf s ci)
    (hsing : (getClass s.classes T).singletonAttr = false) :
    ((getClass s.classes T).constructible = true →
      (getClass s.classes T).fields = [] →
      ∃ s', provideD (fuel + 3) s T = some (.ok (.obj s.nextObj T), s'))
    ∧ ((getClass s.classes T).constructible = false →
      ∃ s', provideD (fuel + 3) s T =
        some (.error (.injectionError T (.typeError T)), s')) := by
  have ht := hasTie_of_empty s ci T he
  constructor
  · intro hcons hfld
    rw [show fuel + 3 = (fuel + 2) + 1 from rfl,
      provideD_fallback_eq (fuel + 2) s ci T hcur hmock ht he]
    exact instantiateD_plain fuel s ci T hp hsing hcons hfld
  · intro hcons
    rw [show fuel + 3 = (fuel + 2) + 1 from rfl,
      provideD_fallback_eq (fuel + 2) s ci T hcur hmock ht he]
    exact instantiateD_abstract fuel s ci T hp hsing hcons

/-- Inverting the wrapper on a successful run: the body succeeded with the
same value. -/
theorem wrapTry_ok_inv (dt ci : Nat) (body : RunResult) (v : Value) (s' : Sys)
    (h : wrapTry dt ci body = some (.ok v, s')) :
    ∃ s2, body = some (.ok v, s2) ∧ s' = s2.removePending ci dt := by
  match body with
  | none => simp [wrapTry] at h
  | some (.ok v2, s2) =>
      simp only [wrapTry, Option.some.injEq, Prod.mk.injEq, Except.ok.injEq] at h
      obtain ⟨h1, h2⟩ := h
      exact ⟨s2, by rw [h1], h2.symm⟩
  | some (.error e, s2) =>
      cases e <;> simp [wrapTry] at h

/-- A successful bare construction returns the freshly allocated object of
the requested class. -/
theorem constructD_ok_shape (fuel : Nat) (s : Sys) (dt : Nat) (v : Value)
    (s' : Sys) (h : constructD fuel s dt = some (.ok v, s')) :
    v = .obj s.nextObj dt := by
  cases fuel with
  | zero => simp [constructD] at h
  | succ f =>
      simp only [constructD] at h
      by_cases hc : (getClass s.classes dt).constructible
      · simp only [hc, Bool.not_true, Bool.false_eq_true, if_false] at h
        cases hsf : setFieldsD f
            { s with objs := updateAssoc s.objs s.nextObj ⟨dt, []⟩,
                     nextObj := s.nextObj + 1 } s.nextObj
            (getClass s.classes dt).fields with
        | none => rw [hsf] at h; cases h
        | some s2 =>
            rw [hsf] at h
            by_cases hff : (getClass s.classes dt).forceFields
            · simp only [hff, if_true] at h
              cases hre : readFieldsErr s2 s.nextObj (getClass s.classes dt).fields with
              | some e => rw [hre] at h; simp at h
              | none =>
                  rw [hre] at h
                  simp only [Option.some.injEq, Prod.mk.injEq, Except.ok.injEq] at h
                  exact h.1.symm
            · simp only [hff, Bool.false_eq_true, if_false, Option.some.injEq,
                Prod.mk.injEq, Except.ok.injEq] at h
              exact h.1.symm
      · simp only [hc, Bool.not_false, if_true] at h
        simp at h

theorem singletons_removePending (s : Sys) (ci dt : Nat) :
    ((s.removePending ci dt).getCtx ci).state.singletons =
      (s.getCtx ci).state.singletons := by
  simp only [Sys.removePending]
  rw [getCtx_setCtx_self]

theorem lookup_singletons_addSingleton_self (s : Sys) (ci dt : Nat) (v : Value) :
    ((s.addSingleton ci dt v).getCtx ci).state.singletons.lookup (MockKey.cls dt) =
      some v := by
  simp only [Sys.addSingleton]
  rw [getCtx_setCtx_self]
  exact lookup_updateAssoc_self ..

/-- A singleton instantiation that finds a cached instance returns it
without constructing anything. -/
theorem instantiateD_singleton_cached (fuel : Nat) (s : Sys) (ci dt : Nat)
    (v : Value) (hp : dt ∉ pendOf s ci)
    (hsg : (getClass s.classes dt).singletonAttr = true)
    (hlk : (s.getCtx ci).state.singletons.lookup (MockKey.cls dt) = some v) :
    instantiateD (fuel + 1) s ci dt =
      some (.ok v, (s.addPending ci dt).removePending ci dt) := by
  simp only [pendOf] at hp
  simp only [instantiateD, hp, if_false, classes_addPending, hsg, if_true]
  rw [singletons_addPending, hlk]
  rfl

/-- After a successful `provide` of a singleton-marked type with no
registered subtype, the active scope's singleton cache maps the type to
the returned instance (the first successful construction is cached). -/
theorem provide_singleton_writes_cache (fuel : Nat) (s : Sys) (ci S : Nat)
    (v : Value) (s' : Sys)
    (hcur : s.current = some ci)
    (hmock : s.isMocked ci (.cls S) = false)
    (he : (subtypesOf s ci S).isEmpty = true)
    (hsg : (getClass s.classes S).singletonAttr = true)
    (h : provideD fuel s S = some (.ok v, s')) :
    (s'.getCtx ci).state.singletons.lookup (.cls S) = some v := by
  cases fuel with
  | zero => simp [provideD] at h
  | succ f =>
      rw [provideD_fallback_eq f s ci S hcur hmock (hasTie_of_empty s ci S he) he] at h
      cases f with
      | zero => simp [instantiateD] at h
      | succ g =>
          simp only [instantiateD] at h
          by_cases hdt : S ∈ (s.getCtx ci).state.pending
          · simp [hdt] at h
          · simp only [hdt, if_false] at h
            obtain ⟨s2, hbody, hs'⟩ := wrapTry_ok_inv _ _ _ _ _ h
            simp only [classes_addPending, hsg, if_true] at hbody
            cases hlk : ((s.addPending ci S).getCtx ci).state.singletons.lookup
                (MockKey.cls S) with
            | some v0 =>
                rw [hlk] at hbody
                simp only [Option.some.injEq, Prod.mk.injEq, Except.ok.injEq] at hbody
                obtain ⟨hv, hs2⟩ := hbody
                subst hs'
                rw [singletons_addPending] at hlk
                rw [singletons_removePending, ← hs2, singletons_addPending, hlk, hv]
            | none =>
                rw [hlk] at hbody
                cases hc : constructD g (s.addPending ci S) S with
                | none => rw [hc] at hbody; cases hbody
                | some pr =>
                    obtain ⟨cres, s3⟩ := pr
                    cases cres with
                    | ok vc =>
                        rw [hc] at hbody
                        simp only [Option.some.injEq, Prod.mk.injEq,
                          Except.ok.injEq] at hbody
                        obtain ⟨hv, hs2⟩ := hbody
                        subst hs'
                        rw [singletons_removePending, ← hs2, ← hv]
                        exact lookup_singletons_addSingleton_self ..
                    | error e =>
                        rw [hc] at hbody
                        simp at hbody

/-- A successful `provide` of a singleton-marked type with no registered
subtype returns the cached instance whenever one is present. -/
theorem provide_singleton_reads_cache (fuel : Nat) (s : Sys) (ci S : Nat)
    (v0 v : Value) (s' : Sys)
    (hcur : s.current = some ci)
    (hmock : s.isMocked ci (.cls S) = false)
    (he : (subtypesOf s ci S).isEmpty = true)
    (hsg : (getClass s.classes S).singletonAttr = true)
    (hlk : (s.getCtx ci).state.singletons.lookup (.cls S) = some v0)
    (h : provideD fuel s S = some (.ok v, s')) : v = v0 := by
  cases fuel with
  | zero => simp [provideD] at h
  | succ f =>
      rw [provideD_fallback_eq f s ci S hcur hmock (hasTie_of_empty s ci S he) he] at h
      cases f with
      | zero => simp [instantiateD] at h
      | succ g =>
          simp only [instantiateD] at h
          by_cases hdt : S ∈ (s.getCtx ci).state.pending
          · simp [hdt] at h
          · simp only [hdt, if_false] at h
            obtain ⟨s2, hbody, -⟩ := wrapTry_ok_inv _ _ _ _ _ h
            simp only [classes_addPending, hsg, if_true] at hbody
            rw [show ((s.addPending ci S).getCtx ci).state.singletons =
                  (s.getCtx ci).state.singletons from singletons_addPending .., hlk]
              at hbody
            simp only [Option.some.injEq, Prod.mk.injEq, Except.ok.injEq] at hbody
            exact hbody.1.symm

/-- C4: the singleton lifecycle.  General half: under an active scope, two
successful `provide` calls for a singleton-marked capability type with no
registered subtype return the identical instance (the first construction
is cached and the second call reads the cache; `provide` cannot change
which context is active or what is mocked, by `preserveAll`).  Concrete
half, for the scope of `test_context.py::test_singleton_is_always_same_instance`:
the two provides inside the entered scope both return the instance with
heap id 0, and after `__exit__` (which reinitialises the `_ContextState`,
discarding the singleton cache) and re-entry, `provide` returns the
distinct fresh instance with heap id 1. -/
theorem claim4_singleton_lifecycle :
    (∀ fuel1 fuel2 s ci S v1 s1 v2 s2,
      s.current = some ci →
      s.isMocked ci (.cls S) = false →
      (subtypesOf s ci S).isEmpty = true →
      (getClass s.classes S).singletonAttr = true →
      provideD fuel1 s S = some (.ok v1, s1) →
      provideD fuel2 s1 S = some (.ok v2, s2) →
      v1 = v2)
    ∧ resOf (provideD 5 singScopeSys 30) = some (.ok (.obj 0 30))
    ∧ resOf (provideD 5 singAfter1 30) = some (.ok (.obj 0 30))
    ∧ resOf (provideD 5 singReenter 30) = some (.ok (.obj 1 30))
    ∧ (Value.obj 0 30 ≠ Value.obj 1 30) := by
  refine ⟨?_, rfl, rfl, rfl, by decide⟩
  intro fuel1 fuel2 s ci S v1 s1 v2 s2 hcur hmock he hsg h1 h2
  obtain ⟨hpres, -⟩ := (preserveAll ci fuel1).1 s S (.ok v1) s1 hcur h1
  have hcache := provide_singleton_writes_cache fuel1 s ci S v1 s1 hcur hmock he hsg h1
  have hcur1 : s1.current = some ci := hpres.cur.trans hcur
  have hmock1 : s1.isMocked ci (.cls S) = false := by
    rw [hpres.isMocked_eq]; exact hmock
  have he1 : (subtypesOf s1 ci S).isEmpty = true := by
    rw [hpres.subtypesOf_eq]; exact he
  have hsg1 : (getClass s1.classes S).singletonAttr = true := by
    rw [hpres.clsEq]; exact hsg
  exact (provide_singleton_reads_cache fuel2 s1 ci S v1 v2 s2 hcur1 hmock1 he1
    hsg1 hcache h2).symm

/-- Witness for C1 at the scope registering `ConcreteA` and
`ConcreteASub`: `provide Base` yields a `ConcreteASub` instance, for both
registration orders. -/
theorem claim1_witness :
    (∃ s', provideD 3 sysChain 0 = some (.ok (.obj 0 3), s'))
    ∧ (∃ s', provideD 3 (sysChain.setRegistry 0 [3, 1]) 0 =
        some (.ok (.obj 0 3), s')) := by
  have h := claim1_provide_most_derived 0 sysChain 0 0 3 rfl (by decide) (by decide)
    (by decide) (by decide) (by decide) (by decide) (by decide) (by decide) (by decide)
  exact ⟨h.1, h.2 [3, 1] (by decide)⟩

/-- Counterexample to C2 as stated: in `sysTie` the candidate
`ConcreteASub` (3) has the strictly greatest specificity (distance 2
against 1 and 1), yet `provide Base` raises `AmbiguousDependencies`
naming the two less specific candidates instead of selecting it. -/
theorem claim2_counterexample :
    subtypesOf sysTie 0 0 = [1, 2, 3]
    ∧ mroDistance sysTie.classes 0 1 = 1
    ∧ mroDistance sysTie.classes 0 2 = 1
    ∧ mroDistance sysTie.classes 0 3 = 2
    ∧ resOf (provideD 5 sysTie 0) =
        some (.error (.ambiguousDependencies 0 [1, 2])) :=
  ⟨rfl, rfl, rfl, rfl, rfl⟩

/-- Witness for C2 (amended) at `sysTie`. -/
theorem claim2_witness :
    provideD 5 sysTie 0 =
      some (.error (.ambiguousDependencies 0 (tiedOf sysTie 0 0)), sysTie) :=
  (claim2_ambiguous_iff_tie 4 sysTie 0 0 rfl rfl).1 rfl

/-- Counterexample to C3 as stated: providing the unregistered abstract
class `9` raises `InjectionError` (wrapping the constructor's
`TypeError`), not `UnregisteredDependency`. -/
theorem claim3_counterexample :
    resOf (provideD 5 sysAbs 9) = some (.error (.injectionError 9 (.typeError 9)))
    ∧ resOf (provideD 5 sysAbs 9) ≠ some (.error .unregisteredDependency) := by
  refine ⟨rfl, ?_⟩
  rw [show resOf (provideD 5 sysAbs 9) =
      some (.error (.injectionError 9 (.typeError 9))) from rfl]
  simp

/-- Witness for C3 (amended): a concrete unregistered class is
instantiated; the abstract one raises the wrapped error. -/
theorem claim3_witness :
    (∃ s', provideD 5 sysNoReg 1 = some (.ok (.obj 0 1), s'))
    ∧ (∃ s', provideD 5 sysAbs 9 =
        some (.error (.injectionError 9 (.typeError 9)), s')) :=
  ⟨(claim3_unregistered_fallback 2 sysNoReg 0 1 rfl rfl rfl (by decide) rfl).1 rfl rfl,
   (claim3_unregistered_fallback 2 sysAbs 0 9 rfl rfl rfl (by decide) rfl).2 rfl⟩

/-- Witness for C4: the general half applied to the two concrete provides
of the singleton scenario. -/
theorem claim4_witness :
    (singScopeSys.current = some 0
      ∧ singScopeSys.isMocked 0 (.cls 30) = false
      ∧ (subtypesOf singScopeSys 0 30).isEmpty = true
      ∧ (getClass singScopeSys.classes 30).singletonAttr = true
      ∧ provideD 5 singScopeSys 30 = some (.ok (.obj 0 30), singAfter1)
      ∧ provideD 5 singAfter1 30 = some (.ok (.obj 0 30), singAfter2))
    ∧ (Value.obj 0 30 : Value) = .obj 0 30 :=
  ⟨⟨rfl, rfl, rfl, rfl, rfl, rfl⟩,
   claim4_singleton_lifecycle.1 5 5 singScopeSys 0 30 _ singAfter1 _ singAfter2
     rfl rfl rfl rfl rfl rfl⟩

/-- Witness for C8 at a concrete resolution. -/
theorem claim8_witness :
    pendOf (afterSys (provideD 5 sysChain 0) sysChain) 0 = pendOf sysChain 0 :=
  claim8_pending_restored 5 sysChain 0 0 _ _ rfl rfl

/-- C5 [exhibiting the `__deepcopy__` slip]: entering a nested scope under
`parentSys` copies the parent's mock table into the child's mock table —
but also into the child's *singleton cache* (`new.singletons =
copy(self.mocks)` in `_ContextState.__deepcopy__`), so the child's
singleton cache differs from the parent's singleton cache, whose entry for
class `30` is lost.  The parent's own state is left unchanged. -/
theorem claim5_enter_snapshot_bug :
    ((parentSys.enter 1).getCtx 1).state.mocks = (parentSys.getCtx 0).state.mocks
    ∧ ((parentSys.enter 1).getCtx 1).state.singletons = [(.cls 31, .mockV 7)]
    ∧ (parentSys.getCtx 0).state.singletons = [(.cls 30, .obj 5 30)]
    ∧ ((parentSys.enter 1).getCtx 1).state.singletons ≠
        (parentSys.getCtx 0).state.singletons
    ∧ ((parentSys.enter 1).getCtx 0).state = (parentSys.getCtx 0).state :=
  ⟨rfl, rfl, rfl, by decide, rfl⟩

/-- Counterexample to C7 as stated: for the pure field-bound cycle
(`10` ↔ `11`, initialisers not reading the bound fields), construction of
an instance of `10` succeeds, and the first access of its bound field `b`
returns the constructed instance of `11` — no `CircularDependency` is
raised there. -/
theorem claim7_counterexample :
    resOf (constructD 30 cycPureSys 10) = some (.ok (.obj 0 10))
    ∧ getattrD cycPureAfter 0 "b" = .ok (.obj 1 11) :=
  ⟨rfl, rfl⟩

/-- C7 (amended): class declaration is pure data (both cycle classes sit
in the table with their mutual field bindings; nothing is resolved at
definition time).  When each initialiser reads its bound field, as in
`test_context.py::test_circular_dependency`, constructing either cycle
class raises `CircularDependency`; constructing a `Dependent` on the cycle
succeeds, with the error stored and re-raised on the first access of its
bound field.  With initialisers that do not read their bound fields, the
error is stored at the *innermost* instance of the chain and raised on
that field's first access, two links down. -/
theorem claim7_cycle_detection :
    (getClass cycPureClasses 10).fields = [("b", 11)]
    ∧ (getClass cycPureClasses 11).fields = [("a", 10)]
    ∧ resOf (constructD 30 cycForceSys 22) = some (.error (.circularDependency 23))
    ∧ resOf (constructD 30 cycForceSys 23) = some (.error (.circularDependency 22))
    ∧ resOf (constructD 30 cycForceSys 24) = some (.ok (.obj 0 24))
    ∧ getattrD cycDepAfter 0 "a" = .error (.circularDependency 22)
    ∧ getattrD cycPureAfter 0 "b" = .ok (.obj 1 11)
    ∧ getattrD cycPureAfter 1 "a" = .ok (.obj 2 10)
    ∧ getattrD cycPureAfter 2 "b" = .error (.circularDependency 11) :=
  ⟨rfl, rfl, rfl, rfl, rfl, rfl, rfl, rfl, rfl⟩

theorem currentContext_of_none (s : Sys) (h : s.current = none) :
    s.currentContext =
      (s.nextCtx,
       { s with
          ctxs := updateAssoc s.ctxs s.nextCtx {},
          nextCtx := s.nextCtx + 1 }) := by
  simp [Sys.currentContext, h]

/-- With no active scope, `provide` builds one fresh empty context (its
own `current_context()` call) and `find_subtype` builds another; the
request is then instantiated against the first, with an empty registry. -/
theorem provideD_no_scope (fuel : Nat) (s : Sys) (T : Nat)
    (hcur : s.current = none) :
    provideD (fuel + 1) s T =
      instantiateD fuel
        { s with
            ctxs := updateAssoc (updateAssoc s.ctxs s.nextCtx {}) (s.nextCtx + 1) {},
            nextCtx := s.nextCtx + 2 }
        s.nextCtx T := by
  have hm : ({ s with
                ctxs := updateAssoc s.ctxs s.nextCtx {},
                nextCtx := s.nextCtx + 1 } : Sys).isMocked s.nextCtx (.cls T)
      = false := by
    simp [Sys.isMocked, Sys.getCtx, lookup_updateAssoc_self, List.lookup]
  have hfs : ({ s with
                ctxs := updateAssoc s.ctxs s.nextCtx {},
                nextCtx := s.nextCtx + 1 } : Sys).findSubtype T =
      (.ok none,
       { s with
          ctxs := updateAssoc (updateAssoc s.ctxs s.nextCtx {}) (s.nextCtx + 1) {},
          nextCtx := s.nextCtx + 2 }) := by
    rw [Sys.findSubtype]
    rw [currentContext_of_none _ (show
      ({ s with
          ctxs := updateAssoc s.ctxs s.nextCtx {},
          nextCtx := s.nextCtx + 1 } : Sys).current = none from hcur)]
    simp [Sys.getCtx, lookup_updateAssoc_self, List.lookup]
  simp only [provideD, currentContext_of_none s hcur, hm, Bool.false_eq_true,
    if_false, hfs]

/-- C6 (amended): with no scope active on the thread, `provide` does not
fail for lack of a scope (no `NoActiveScope` exists in the code):
`current_context()` returns a fresh empty `Context` and resolution
proceeds against it, so a constructible plain `T` yields a fresh instance
of `T`. -/
theorem claim6_no_scope_resolves (fuel : Nat) (s : Sys) (T : Nat)
    (hcur : s.current = none)
    (hcons : (getClass s.classes T).constructible = true)
    (hfld : (getClass s.classes T).fields = [])
    (hsing : (getClass s.classes T).singletonAttr = false) :
    ∃ s', provideD (fuel + 3) s T = some (.ok (.obj s.nextObj T), s') := by
  rw [show fuel + 3 = (fuel + 2) + 1 from rfl, provideD_no_scope (fuel + 2) s T hcur]
  have hp : T ∉ pendOf
      { s with
          ctxs := updateAssoc (updateAssoc s.ctxs s.nextCtx {}) (s.nextCtx + 1) {},
          nextCtx := s.nextCtx + 2 } s.nextCtx := by
    have hne : s.nextCtx ≠ s.nextCtx + 1 := Nat.ne_of_lt (Nat.lt_succ_self _)
    simp only [pendOf, Sys.getCtx]
    rw [lookup_updateAssoc_ne _ _ _ _ hne, lookup_updateAssoc_self]
    simp
  exact instantiateD_plain fuel _ s.nextCtx T hp hsing hcons hfld

/-- Counterexample to C6 as stated: with no scope entered, `provide` of
the concrete class `ConcreteA` does not raise anything — it returns a
fresh instance. -/
theorem claim6_counterexample :
    noScopeSys.current = none
    ∧ resOf (provideD 5 noScopeSys 1) = some (.ok (.obj 0 1)) :=
  ⟨rfl, rfl⟩

/-- Witness for C6 (amended). -/
theorem claim6_witness :
    ∃ s', provideD 5 noScopeSys 1 = some (.ok (.obj 0 1), s') :=
  claim6_no_scope_resolves 2 noScopeSys 1 rfl rfl rfl rfl

/-- A successful instantiation with an empty singleton-cache entry yields
a constructed object (never a mock value). -/
theorem instantiateD_ok_shape (fuel : Nat) (s : Sys) (ci dt : Nat) (v : Value)
    (s' : Sys)
    (hsingl : (s.getCtx ci).state.singletons.lookup (MockKey.cls dt) = none)
    (h : instantiateD fuel s ci dt = some (.ok v, s')) :
    ∃ oid c, v = .obj oid c := by
  cases fuel with
  | zero => simp [instantiateD] at h
  | succ f =>
      simp only [instantiateD] at h
      by_cases hdt : dt ∈ (s.getCtx ci).state.pending
      · simp [hdt] at h
      · simp only [hdt, if_false] at h
        obtain ⟨s2, hbody, -⟩ := wrapTry_ok_inv _ _ _ _ _ h
        by_cases hsg : (getClass (s.addPending ci dt).classes dt).singletonAttr
        · simp only [hsg, if_true] at hbody
          rw [show ((s.addPending ci dt).getCtx ci).state.singletons =
                (s.getCtx ci).state.singletons from singletons_addPending ..,
            hsingl] at hbody
          cases hc : constructD f (s.addPending ci dt) dt with
          | none => rw [hc] at hbody; cases hbody
          | some pr =>
              obtain ⟨cres, s3⟩ := pr
              cases cres with
              | ok vc =>
                  rw [hc] at hbody
                  simp only [Option.some.injEq, Prod.mk.injEq,
                    Except.ok.injEq] at hbody
                  obtain ⟨hv, -⟩ := hbody
                  exact ⟨_, _, by rw [← hv,
                    constructD_ok_shape f (s.addPending ci dt) dt vc s3 hc]⟩
              | error e => rw [hc] at hbody; simp at hbody
        · simp only [hsg, Bool.false_eq_true, if_false] at hbody
          exact ⟨_, _, constructD_ok_shape f (s.addPending ci dt) dt v s2 hbody⟩

/-- C10: with no scope active, each call of the current-context accessor
returns a distinct freshly constructed empty `Context`; consequently
`mock` installs its stand-in on a throwaway context (the thread still has
no current scope afterwards) and no later `provide` on the thread ever
returns that stand-in. -/
theorem claim10_mock_outside_scope (s : Sys) (T : Nat)
    (hcur : s.current = none) :
    ((s.currentContext).1 ≠ (((s.currentContext).2).currentContext).1
      ∧ (s.currentContext).2.getCtx (s.currentContext).1 = {})
    ∧ (∀ m s', s.mock (.cls T) = .ok (m, s') →
        s'.current = none
        ∧ ∀ dep fuel v s'', provideD fuel s' dep = some (.ok v, s'') → v ≠ m) := by
  constructor
  · constructor
    · simp only [Sys.currentContext, hcur]
      simp
    · simp [Sys.currentContext, hcur, Sys.getCtx, lookup_updateAssoc_self]
  · intro m s' h
    simp only [Sys.mock, currentContext_of_none s hcur, Except.ok.injEq,
      Prod.mk.injEq] at h
    obtain ⟨hm, hs⟩ := h
    constructor
    · rw [← hs]
      exact hcur
    · intro dep fuel v s'' hp
      have hcur' : s'.current = none := by rw [← hs]; exact hcur
      cases fuel with
      | zero => simp [provideD] at hp
      | succ f =>
          rw [provideD_no_scope f s' dep hcur'] at hp
          have hsingl :
              (({ s' with
                  ctxs := updateAssoc (updateAssoc s'.ctxs s'.nextCtx {})
                    (s'.nextCtx + 1) {},
                  nextCtx := s'.nextCtx + 2 } : Sys).getCtx
                s'.nextCtx).state.singletons.lookup (MockKey.cls dep) = none := by
            have hne : s'.nextCtx ≠ s'.nextCtx + 1 := Nat.ne_of_lt (Nat.lt_succ_self _)
            simp only [Sys.getCtx]
            rw [lookup_updateAssoc_ne _ _ _ _ hne, lookup_updateAssoc_self]
            simp [List.lookup]
          obtain ⟨oid, c, hv⟩ := instantiateD_ok_shape f _ s'.nextCtx dep v s''
            hsingl hp
          rw [hv, ← hm]
          simp

/-- Witness for C10: the fresh-context part at a concrete world. -/
theorem claim10_witness :
    noScopeSys.current = none
    ∧ (noScopeSys.currentContext).1 ≠
        (((noScopeSys.currentContext).2).currentContext).1 :=
  ⟨rfl, (claim10_mock_outside_scope noScopeSys 1 rfl).1.1⟩

/-- C9: `mock(target)` builds a stand-in (the `create_autospec` stand-in
fabrication itself is the external test-double collaborator, modelled as
a fresh mock value), stores it under `target` in the active scope's mock
table, and returns it; subsequent resolution of `target` in that scope —
`provide` for a capability type, the named lookup for a binding name —
yields the stand-in before any normal resolution (no registry or
singleton machinery is consulted). -/
theorem claim9_mock_override (s : Sys) (ci T : Nat) (nm2 : String) (v0 : Value)
    (fuel : Nat) (hcur : s.current = some ci) :
    (∀ m s', s.mock (.cls T) = .ok (m, s') →
      m = .mockV s.nextObj
      ∧ (s'.getCtx ci).state.mocks.lookup (.cls T) = some m
      ∧ provideD (fuel + 1) s' T = some (.ok m, s'))
    ∧ (s.getitem ci nm2 = .ok v0 →
      ∀ m s', s.mock (.nm nm2) = .ok (m, s') →
        (s'.getCtx ci).state.mocks.lookup (.nm nm2) = some m
        ∧ provideNamed s' nm2 = (.ok m, s')) := by
  constructor
  · intro m s' h
    simp only [Sys.mock, currentContext_of_some s ci hcur, Except.ok.injEq,
      Prod.mk.injEq] at h
    obtain ⟨hm, hs⟩ := h
    have hlk : (s'.getCtx ci).state.mocks.lookup (.cls T) = some m := by
      rw [← hs, ← hm]
      simp only [Sys.getCtx, Sys.setCtx]
      rw [lookup_updateAssoc_self]
      simp only [Option.getD_some]
      exact lookup_updateAssoc_self ..
    refine ⟨hm.symm, hlk, ?_⟩
    have hcur' : s'.current = some ci := by rw [← hs]; exact hcur
    have hmock' : s'.isMocked ci (.cls T) = true := by
      simp [Sys.isMocked, hlk]
    rw [provideD_mocked_eq fuel s' ci T hcur' hmock']
    have : s'.getMock ci (.cls T) = m := by simp [Sys.getMock, hlk]
    rw [this]
  · intro hget m s' h
    simp only [Sys.mock, currentContext_of_some s ci hcur, hget, Except.ok.injEq,
      Prod.mk.injEq] at h
    obtain ⟨hm, hs⟩ := h
    have hlk : (s'.getCtx ci).state.mocks.lookup (.nm nm2) = some m := by
      rw [← hs, ← hm]
      simp only [Sys.getCtx, Sys.setCtx]
      rw [lookup_updateAssoc_self]
      simp only [Option.getD_some]
      exact lookup_updateAssoc_self ..
    have hcur' : s'.current = some ci := by rw [← hs]; exact hcur
    refine ⟨hlk, ?_⟩
    rw [provideNamed, currentContext_of_some s' ci hcur']
    simp [Sys.getitem, hlk]

/-- Witness for C9 at `mockScopeSys`: mocking the class `31` and the named
binding `key`. -/
theorem claim9_witness :
    (Value.mockV 0 = .mockV mockScopeSys.nextObj
      ∧ ((afterMockCls.getCtx 0).state.mocks.lookup (.cls 31) = some (.mockV 0))
      ∧ provideD 5 afterMockCls 31 = some (.ok (.mockV 0), afterMockCls))
    ∧ ((afterMockNm.getCtx 0).state.mocks.lookup (.nm "key") = some (.mockV 0)
      ∧ provideNamed afterMockNm "key" = (.ok (.mockV 0), afterMockNm)) :=
  ⟨by
    have h := (claim9_mock_override mockScopeSys 0 31 "key" (.lit "value") 4
      rfl).1 (.mockV 0) afterMockCls rfl
    exact ⟨h.1, h.2.1, h.2.2⟩,
   by
    have h := (claim9_mock_override mockScopeSys 0 31 "key" (.lit "value") 4
      rfl).2 rfl (.mockV 0) afterMockNm rfl
    exact ⟨h.1, h.2⟩⟩

end Serum
